import Mathlib

/-!
Verification development for the hand-teleop client pipeline of the
personal-website repository.  The definitions below are a shallow embedding
of the TypeScript sources:

* `src/app/components/HandTeleopWidget.tsx` (namespace `Widget`):
  fingertip extraction, pixel conversion, robot-control mapping, FPS
  bookkeeping and the stop-tracking reset.
* `src/app/routes/projects.hand-teleop.tsx` (namespace `Route`): the
  camera start/stop lifecycle and the per-frame detection-response
  handler of `processHandTracking`.
* `src/docs/frontend-integration-example.tsx` (namespace `Channel`): the
  WebSocket connect / disconnect / reconnect logic, modelled as a small
  event-driven transition system (browser event loop semantics: socket
  open/close events and timer firings are delivered as discrete events).

Numeric values are modelled as rationals; the one use of `Math.sqrt`
(the gripper distance test) is handled through the equivalence
`sqrt d < 50 ↔ d < 2500` for the squared distance, proved as a lemma
over the reals where the claims mention the Euclidean distance itself.
-/

/-- A 3D point as used for both normalized landmarks and pixel-space
fingertip positions (`{ x, y, z }` objects in the source). -/
structure Point3 where
  x : ℚ
  y : ℚ
  z : ℚ
deriving DecidableEq, Repr

/-- `FingertipData` from HandTeleopWidget.tsx: each of the three tracked
points is `null` (here `none`) when no hand is detected. -/
structure FingertipData where
  thumb : Option Point3
  indexPip : Option Point3
  indexTip : Option Point3
deriving DecidableEq, Repr

/-- The gripper enum of `RobotMapping` (`'Open' | 'Closed'`). -/
inductive Gripper where
  | Open
  | Closed
deriving DecidableEq, Repr

/-- `RobotMapping` from HandTeleopWidget.tsx (the RobotControlProxy of the
spec): position proxy plus binary gripper state. -/
structure RobotMapping where
  x : ℚ
  y : ℚ
  z : ℚ
  gripper : Gripper
deriving DecidableEq, Repr

/-- The three landmarks the widget reads from a detected hand
(`landmarks[4]`, `landmarks[6]`, `landmarks[8]`), in normalized
coordinates.  MediaPipe always delivers all 21 landmarks for a detected
hand, so the three points are total here. -/
structure Landmarks where
  thumbTip : Point3
  indexPip : Point3
  indexTip : Point3
deriving DecidableEq, Repr

/-- The reset value `{ thumb: null, indexPip: null, indexTip: null }`. -/
def noFingertips : FingertipData := ⟨none, none, none⟩

/-- The neutral value `{ x: 0, y: 0, z: 0, gripper: 'Open' }`. -/
def neutralMapping : RobotMapping := ⟨0, 0, 0, Gripper.Open⟩

namespace Widget

/-- Squared 2D pixel distance between two points, the argument of
`Math.sqrt` in `updateRobotMapping`:
`Math.pow(thumb.x - indexTip.x, 2) + Math.pow(thumb.y - indexTip.y, 2)`. -/
def distSq (p q : Point3) : ℚ := (p.x - q.x) ^ 2 + (p.y - q.y) ^ 2

/-- `updateRobotMapping(data, width, height)` from HandTeleopWidget.tsx.
If thumb or indexTip is absent the source returns early, leaving the
previous React state untouched, so the previous mapping `prev` is the
result of that branch.  The source compares
`Math.sqrt(distSq) < 50`; for the nonnegative squared distance this is
equivalent to `distSq < 2500`, which keeps the definition executable
(the equivalence with the real square root is proved where needed). -/
def updateRobotMapping (data : FingertipData) (width height : ℚ)
    (prev : RobotMapping) : RobotMapping :=
  match data.thumb, data.indexTip with
  | some thumb, some indexTip =>
    let x := (indexTip.x / width - 1/2) * 2
    let y := (indexTip.y / height - 1/2) * (-2)
    let z := max 0 (indexTip.z * 2)
    let gripper := if distSq thumb indexTip < 2500 then Gripper.Closed else Gripper.Open
    ⟨x, y, z, gripper⟩
  | _, _ => prev

/-- The pixel conversion inside `onResults`:
`{ x: tip.x * w, y: tip.y * h, z: tip.z }` for each of the three
landmarks. -/
def toPixels (lm : Landmarks) (w h : ℚ) : FingertipData :=
  { thumb := some ⟨lm.thumbTip.x * w, lm.thumbTip.y * h, lm.thumbTip.z⟩
  , indexPip := some ⟨lm.indexPip.x * w, lm.indexPip.y * h, lm.indexPip.z⟩
  , indexTip := some ⟨lm.indexTip.x * w, lm.indexTip.y * h, lm.indexTip.z⟩ }

/-- The widget component state touched by the tracking pipeline:
`isTracking`, the canvas ref presence, `fingertips`, `robotMapping`,
`fps` plus the FPS bookkeeping refs, and the status line. -/
structure WidgetState where
  isTracking : Bool
  hasCanvas : Bool
  fingertips : FingertipData
  robotMapping : RobotMapping
  fps : ℤ
  frameCount : ℕ
  lastTime : ℚ
  status : String
deriving DecidableEq, Repr

/-- `updateFPS()` from HandTeleopWidget.tsx with `performance.now()`
passed in as `now`: increments the frame counter and, once a second has
elapsed, publishes the rounded frame rate and restarts the window.
(`Math.round` and Lean `round` both map `q` to `⌊q + 1/2⌋`.) -/
def updateFPS (now : ℚ) (s : WidgetState) : WidgetState :=
  let fc := s.frameCount + 1
  if 1000 ≤ now - s.lastTime then
    { s with fps := round ((fc : ℚ) * 1000 / (now - s.lastTime))
           , frameCount := 0
           , lastTime := now }
  else
    { s with frameCount := fc }

/-- `onResults(results)` from HandTeleopWidget.tsx for one processed
frame: early return when not tracking or no canvas; with a detected hand
the three landmarks are converted to pixels, stored, and fed to
`updateRobotMapping`; with no hand only the fingertips are reset; either
way `updateFPS` runs last.  `hand` is `results.multiHandLandmarks[0]`
when the array is nonempty, `w`/`h` the canvas (video) dimensions. -/
def onResults (hand : Option Landmarks) (w h now : ℚ) (s : WidgetState) :
    WidgetState :=
  if !s.isTracking || !s.hasCanvas then s
  else
    let s1 :=
      match hand with
      | some lm =>
        let nf := toPixels lm w h
        { s with fingertips := nf
               , robotMapping := updateRobotMapping nf w h s.robotMapping }
      | none => { s with fingertips := noFingertips }
    updateFPS now s1

/-- `stopTracking()` from HandTeleopWidget.tsx: stops tracking, resets
fingertips, robot mapping and FPS, and sets the status line.  (The
camera object and canvas pixel clearing are external side effects with
no component state of their own.) -/
def stopTracking (s : WidgetState) : WidgetState :=
  { s with isTracking := false
         , fingertips := noFingertips
         , robotMapping := neutralMapping
         , fps := 0
         , status := "Tracking stopped" }

end Widget

namespace Route

/-- The `FingertipData` of projects.hand-teleop.tsx, which additionally
carries a `timestamp` (`Date.now()` at update time). -/
structure RouteFingertips where
  thumb : Option Point3
  indexPip : Option Point3
  indexTip : Option Point3
  timestamp : ℚ
deriving DecidableEq, Repr

/-- Outcome of one `/detect_hands` round trip inside
`processHandTracking`: a hand with its three tracked landmarks
(`hand.landmarks[4]/[6]/[8]`), an empty `data.hands` array, or a thrown
fetch/API error reaching the `catch` block. -/
inductive DetectOutcome where
  | detected (lm : Landmarks)
  | noHand
  | apiError
deriving DecidableEq, Repr

/-- The per-frame state update of `processHandTracking` in
projects.hand-teleop.tsx (response/catch handling, cited lines 477-519):
a detected hand stores its three landmarks; an empty hands array resets
all three to `null`; the `catch` block falls back to simulated data,
`Math.random() * 100` for every coordinate, with the successive
`Math.random()` draws supplied by the oracle `rand`. -/
def processHandTrackingResult (rand : ℕ → ℚ) (now : ℚ)
    (res : DetectOutcome) : RouteFingertips :=
  match res with
  | .detected lm => ⟨some lm.thumbTip, some lm.indexPip, some lm.indexTip, now⟩
  | .noHand => ⟨none, none, none, now⟩
  | .apiError =>
    ⟨some ⟨rand 0 * 100, rand 1 * 100, rand 2 * 100⟩
    , some ⟨rand 3 * 100, rand 4 * 100, rand 5 * 100⟩
    , some ⟨rand 6 * 100, rand 7 * 100, rand 8 * 100⟩
    , now⟩

/-- The camera/tracking slice of the route component state:
`isTracking`, `isCameraActive`, whether `streamRef.current` and
`videoRef.current.srcObject` are non-null, whether an animation frame
request is pending, and the console log list. -/
structure RouteState where
  isTracking : Bool
  isCameraActive : Bool
  hasStream : Bool
  videoHasSrc : Bool
  animationPending : Bool
  consoleLogs : List String
deriving DecidableEq, Repr

/-- `addToConsole(message)`: prepends the message and keeps the last 50
entries (the wall-clock timestamp prefix of each entry is elided). -/
def addToConsole (message : String) (s : RouteState) : RouteState :=
  { s with consoleLogs := (message :: s.consoleLogs).take 50 }

/-- `stopTracking()` from projects.hand-teleop.tsx: clears the tracking
flag, logs, and cancels a pending animation frame request if any. -/
def stopTracking (s : RouteState) : RouteState :=
  let s1 := addToConsole "Hand tracking stopped" { s with isTracking := false }
  if s1.animationPending then { s1 with animationPending := false } else s1

/-- `stopCamera()` from projects.hand-teleop.tsx: stops tracking first
when active, stops and releases the stream tracks, detaches the video
source, clears the camera-active flag and logs. -/
def stopCamera (s : RouteState) : RouteState :=
  let s1 := if s.isTracking then stopTracking s else s
  let s2 := if s1.hasStream then { s1 with hasStream := false } else s1
  let s3 := { s2 with videoHasSrc := false }
  addToConsole "Camera stopped" { s3 with isCameraActive := false }

/-- The camera/tracking observables of the route state: everything
except the diagnostic console log. -/
def camObs (s : RouteState) : Bool × Bool × Bool × Bool × Bool :=
  (s.isTracking, s.isCameraActive, s.hasStream, s.videoHasSrc, s.animationPending)

/-- The route state counts as stopped when tracking is off, the camera
is inactive and no stream or video source is held. -/
def stoppedState (s : RouteState) : Prop :=
  s.isTracking = false ∧ s.isCameraActive = false ∧
    s.hasStream = false ∧ s.videoHasSrc = false

instance (s : RouteState) : Decidable (stoppedState s) := by
  unfold stoppedState
  infer_instance

end Route

namespace Channel

/-- WebSocket ready states, named as in the browser API
(`WebSocket.CONNECTING/OPEN/CLOSING/CLOSED`). -/
inductive ReadyState where
  | CONNECTING
  | OPEN
  | CLOSING
  | CLOSED
deriving DecidableEq, Repr

/-- State of the streaming-channel logic of
frontend-integration-example.tsx, as a whole-system snapshot.  Sockets
are identified by their creation index into `sockets`; every socket ever
created keeps its installed `onopen`/`onclose` handlers, whether or not
`wsRef` still points at it.  `timers` lists the pending reconnect
timeouts as (id, delay ms); `reconnectRef` is
`reconnectTimeoutRef.current`. -/
structure WSState where
  sockets : List ReadyState
  wsRef : Option ℕ
  timers : List (ℕ × ℚ)
  nextTimer : ℕ
  reconnectRef : Option ℕ
  isConnected : Bool
  isTracking : Bool
  connectionStatus : String
deriving DecidableEq, Repr

/-- The fixed reconnect delay of the source (`setTimeout(..., 3000)`). -/
def reconnectDelayMs : ℚ := 3000

/-- The `if (reconnectTimeoutRef.current) { clearTimeout(...); ... = null }`
pattern shared by the `onopen` handler and `disconnectWebSocket`. -/
def clearReconnectTimeout (s : WSState) : WSState :=
  match s.reconnectRef with
  | some t => { s with timers := s.timers.filter (fun p => p.1 ≠ t)
                     , reconnectRef := none }
  | none => s

/-- `wsRef.current?.readyState` (none when `wsRef.current` is null). -/
def refReady (s : WSState) : Option ReadyState :=
  s.wsRef.bind (fun i => s.sockets.get? i)

/-- `connectWebSocket()`: returns early when the referenced socket is
already OPEN, otherwise creates a fresh socket in CONNECTING state and
points `wsRef` at it (the previous socket, if any, keeps its handlers). -/
def connectWebSocket (s : WSState) : WSState :=
  if refReady s = some ReadyState.OPEN then s
  else { s with sockets := s.sockets ++ [ReadyState.CONNECTING]
              , wsRef := some s.sockets.length }

/-- The body of the `onopen` handler: marks the state connected and
clears a pending reconnect timeout if one is referenced. -/
def onOpenHandler (s : WSState) : WSState :=
  clearReconnectTimeout
    { s with isConnected := true, connectionStatus := "connected" }

/-- The body of the `onclose` handler: marks the state disconnected and
schedules one reconnect timeout after `reconnectDelayMs`, overwriting
`reconnectTimeoutRef.current` without clearing a previously referenced
timer. -/
def onCloseHandler (s : WSState) : WSState :=
  { s with isConnected := false
         , isTracking := false
         , connectionStatus := "disconnected"
         , timers := s.timers ++ [(s.nextTimer, reconnectDelayMs)]
         , reconnectRef := some s.nextTimer
         , nextTimer := s.nextTimer + 1 }

/-- `ws.close()` on a socket: a live socket moves to CLOSING (its close
event is delivered later); a closed socket is unaffected. -/
def closeSocket : ReadyState → ReadyState
  | ReadyState.CONNECTING => ReadyState.CLOSING
  | ReadyState.OPEN => ReadyState.CLOSING
  | ReadyState.CLOSING => ReadyState.CLOSING
  | ReadyState.CLOSED => ReadyState.CLOSED

/-- `disconnectWebSocket()`: closes the referenced socket (its handlers
stay installed and its close event will still be delivered), nulls
`wsRef`, and clears a pending reconnect timeout if one is referenced. -/
def disconnectWebSocket (s : WSState) : WSState :=
  let s1 :=
    match s.wsRef with
    | some i =>
      { s with sockets := s.sockets.set i (closeSocket (s.sockets.getD i ReadyState.CLOSED))
             , wsRef := none }
    | none => s
  clearReconnectTimeout s1

/-- Events of the browser event loop relevant to the channel: the two
user actions and the asynchronous socket/timer callbacks. -/
inductive Ev where
  | userConnect
  | userDisconnect
  | openEvt (sid : ℕ)
  | closeEvt (sid : ℕ)
  | timerFire (tid : ℕ)
deriving DecidableEq, Repr

/-- One event-loop step.  Socket events are delivered at most once and
only to sockets in a compatible state (an open event only to a
connecting socket; a close event only to a socket not yet closed — a
socket closed locally via CLOSING still delivers its close event, as in
the browser); a timer fires only while pending, and firing it runs
`connectWebSocket`. -/
def step (s : WSState) : Ev → WSState
  | Ev.userConnect => connectWebSocket s
  | Ev.userDisconnect => disconnectWebSocket s
  | Ev.openEvt sid =>
    match s.sockets.get? sid with
    | some ReadyState.CONNECTING =>
      onOpenHandler { s with sockets := s.sockets.set sid ReadyState.OPEN }
    | _ => s
  | Ev.closeEvt sid =>
    match s.sockets.get? sid with
    | some ReadyState.CONNECTING | some ReadyState.OPEN | some ReadyState.CLOSING =>
      onCloseHandler { s with sockets := s.sockets.set sid ReadyState.CLOSED }
    | _ => s
  | Ev.timerFire tid =>
    if s.timers.any (fun p => p.1 = tid) then
      connectWebSocket { s with timers := s.timers.filter (fun p => p.1 ≠ tid) }
    else s

/-- The initial channel state: no socket, no timer, disconnected. -/
def initWS : WSState :=
  ⟨[], none, [], 0, none, false, false, "disconnected"⟩

/-- Execution of an event trace from the initial state. -/
def runEvents (evs : List Ev) : WSState :=
  evs.foldl step initWS

/-- Socket `sid` exists and has not yet delivered its close event. -/
def socketLive (s : WSState) (sid : ℕ) : Prop :=
  s.sockets.get? sid = some ReadyState.CONNECTING ∨
    s.sockets.get? sid = some ReadyState.OPEN ∨
    s.sockets.get? sid = some ReadyState.CLOSING

instance (s : WSState) (sid : ℕ) : Decidable (socketLive s sid) := by
  unfold socketLive
  infer_instance

end Channel

namespace Scenario

/-- The landmark set of the end-to-end scenario in the spec:
thumb=(0.5,0.5,0), indexPip=(0.52,0.3,0), indexTip=(0.55,0.2,0). -/
def lm3 : Landmarks := ⟨⟨1/2, 1/2, 0⟩, ⟨13/25, 3/10, 0⟩, ⟨11/20, 1/5, 0⟩⟩

/-- Thumb pixel position of the scenario on a 640×480 frame. -/
def pxThumb : Point3 := ⟨320, 240, 0⟩

/-- IndexTip pixel position of the scenario on a 640×480 frame. -/
def pxIndex : Point3 := ⟨352, 96, 0⟩

/-- A widget state in the middle of active tracking. -/
def trackingState : Widget.WidgetState :=
  ⟨true, true, noFingertips, neutralMapping, 0, 0, 0, "Hand tracking active"⟩

/-- A pinch input: identical thumb and indexTip pixel coordinates. -/
def pinchPt : Point3 := ⟨100, 100, 0⟩

/-- Fingertip data whose thumb and indexTip coincide (pinch). -/
def pinch : FingertipData := ⟨some pinchPt, some ⟨110, 120, 0⟩, some pinchPt⟩

/-- Fingertip data whose indexTip has relative depth 2 (a legitimate
unbounded depth estimate), exercising the missing upper clamp on z. -/
def deepTip : FingertipData :=
  ⟨some ⟨320, 240, 0⟩, some ⟨330, 200, 0⟩, some ⟨320, 240, 2⟩⟩

/-- A route state that is already fully stopped, with empty console. -/
def stoppedRoute : Route.RouteState := ⟨false, false, false, false, false, []⟩

/-- A deterministic stand-in for the `Math.random()` draw sequence. -/
def halfOracle : ℕ → ℚ := fun _ => 1/2

/-- IndexTip positions used to exhibit the monotone linear mapping. -/
def tipA : Point3 := ⟨100, 50, 0⟩

/-- Second indexTip position, to the right of and below `tipA`. -/
def tipB : Point3 := ⟨200, 150, 0⟩

/-- Event trace: user connects, the socket opens, the user explicitly
disconnects; then the browser delivers the close event of the explicitly
closed socket and the scheduled reconnect timer fires. -/
def disconnectTrace : List Channel.Ev :=
  [Channel.Ev.userConnect, Channel.Ev.openEvt 0, Channel.Ev.userDisconnect,
   Channel.Ev.closeEvt 0, Channel.Ev.timerFire 0]

/-- Event trace: the user clicks connect twice in quick succession (the
button stays enabled while the first socket is still CONNECTING), then
both connection attempts fail and deliver their close events. -/
def doubleConnectTrace : List Channel.Ev :=
  [Channel.Ev.userConnect, Channel.Ev.userConnect,
   Channel.Ev.closeEvt 0, Channel.Ev.closeEvt 1]

end Scenario

/-- C10: after `stopTracking` completes, from any widget state, the
derived output is the neutral one — all three fingertips absent, the
robot mapping equal to the neutral value, and the FPS counter 0. -/
theorem c10_stopTracking_resets (s : Widget.WidgetState) :
    (Widget.stopTracking s).fingertips = noFingertips ∧
    (Widget.stopTracking s).robotMapping = neutralMapping ∧
    (Widget.stopTracking s).fps = 0 :=
  ⟨rfl, rfl, rfl⟩

/-- C9 (counterexample): calling the route-level `stopCamera` from the
already-stopped state is not the identity on the component state — each
call appends a fresh "Camera stopped" line to the console log. -/
theorem c9_stop_identity_counterexample :
    Route.stopCamera Scenario.stoppedRoute ≠ Scenario.stoppedRoute := by
  decide

/-- C9 (amended): the widget-level stop is literally idempotent
(stop ∘ stop = stop), and the route-level `stopCamera` from an
already-stopped state changes none of the camera/tracking observables
and raises no error; the only change is the appended diagnostic console
log entry. -/
theorem c9_stop_idempotent_amended :
    (∀ w : Widget.WidgetState,
      Widget.stopTracking (Widget.stopTracking w) = Widget.stopTracking w) ∧
    (∀ s : Route.RouteState, Route.stoppedState s →
      Route.camObs (Route.stopCamera s) = Route.camObs s ∧
      (Route.stopCamera s).consoleLogs = ("Camera stopped" :: s.consoleLogs).take 50) := by
  constructor
  · intro w
    rfl
  · rintro s ⟨h1, h2, h3, h4⟩
    constructor
    · simp [Route.stopCamera, Route.addToConsole, Route.camObs, h1, h2, h3, h4]
    · simp [Route.stopCamera, Route.addToConsole, h1, h3]

/-- C9 (witness): the amended idempotence facts at the concrete
already-stopped route state. -/
theorem c9_stop_idempotent_amended_witness :
    Route.stoppedState Scenario.stoppedRoute ∧
    (Route.camObs (Route.stopCamera Scenario.stoppedRoute) = Route.camObs Scenario.stoppedRoute ∧
      (Route.stopCamera Scenario.stoppedRoute).consoleLogs =
        ("Camera stopped" :: Scenario.stoppedRoute.consoleLogs).take 50) :=
  ⟨by decide, c9_stop_idempotent_amended.2 Scenario.stoppedRoute (by decide)⟩

/-- C1 (counterexample): a tracked frame with a hand at the scenario
position followed by a frame with no hand leaves all fingertips absent,
but the robot mapping keeps its previous (non-neutral) value — the
no-hand branch of `onResults` does not reset the robot mapping. -/
theorem c1_neutral_reset_counterexample :
    (Widget.onResults none 640 480 16
      (Widget.onResults (some Scenario.lm3) 640 480 0 Scenario.trackingState)).fingertips
        = noFingertips ∧
    (Widget.onResults none 640 480 16
      (Widget.onResults (some Scenario.lm3) 640 480 0 Scenario.trackingState)).robotMapping
        ≠ neutralMapping := by
  constructor
  · simp [Widget.onResults, Scenario.trackingState, Widget.updateFPS, noFingertips]
    norm_num
  · simp [Widget.onResults, Scenario.trackingState, Widget.updateFPS, Widget.toPixels,
      Widget.updateRobotMapping, Widget.distSq, Scenario.lm3, neutralMapping]
    norm_num [RobotMapping.mk.injEq]

/-- C1 (amended): on a frame-processing step whose input lacks a hand,
all three fingertips become absent but the robot mapping is left
unchanged (it keeps its last value); likewise `updateRobotMapping`
leaves the previous mapping untouched whenever thumb or indexTip is
absent.  The mapping returns to the neutral value only via
`stopTracking`. -/
theorem c1_noHand_reset_amended (s : Widget.WidgetState) (w h now : ℚ)
    (htrack : s.isTracking = true) (hcanvas : s.hasCanvas = true) :
    (Widget.onResults none w h now s).fingertips = noFingertips ∧
    (Widget.onResults none w h now s).robotMapping = s.robotMapping ∧
    (∀ (d : FingertipData) (prev : RobotMapping),
      d.thumb = none ∨ d.indexTip = none →
        Widget.updateRobotMapping d w h prev = prev) := by
  have hguard : (!s.isTracking || !s.hasCanvas) = false := by
    rw [htrack, hcanvas]
    rfl
  refine ⟨?_, ?_, ?_⟩
  · simp only [Widget.onResults, hguard, Bool.false_eq_true, if_false, Widget.updateFPS]
    split <;> rfl
  · simp only [Widget.onResults, hguard, Bool.false_eq_true, if_false, Widget.updateFPS]
    split <;> rfl
  · rintro ⟨th, ip, it⟩ prev (hd | hd) <;> simp only at hd <;> subst hd
    · cases it <;> rfl
    · cases th <;> rfl

/-- C1 (witness): the amended no-hand behavior at the concrete tracking
state. -/
theorem c1_noHand_reset_amended_witness :
    Scenario.trackingState.isTracking = true ∧
    ((Widget.onResults none 640 480 0 Scenario.trackingState).fingertips = noFingertips ∧
      (Widget.onResults none 640 480 0 Scenario.trackingState).robotMapping
        = Scenario.trackingState.robotMapping ∧
      (∀ (d : FingertipData) (prev : RobotMapping),
        d.thumb = none ∨ d.indexTip = none →
          Widget.updateRobotMapping d 640 480 prev = prev)) :=
  ⟨rfl, c1_noHand_reset_amended Scenario.trackingState 640 480 0 rfl rfl⟩

/-- C4 (counterexample): when the detection API call fails, the cited
handler does not reset the derived state as a no-hand frame would —
it populates the fingertips with simulated data (here with every
`Math.random()` draw equal to 0.5, giving coordinates 50). -/
theorem c4_failure_reset_counterexample :
    (Route.processHandTrackingResult Scenario.halfOracle 0 Route.DetectOutcome.apiError).thumb
      = some ⟨50, 50, 50⟩ ∧
    Route.processHandTrackingResult Scenario.halfOracle 0 Route.DetectOutcome.apiError
      ≠ Route.processHandTrackingResult Scenario.halfOracle 0 Route.DetectOutcome.noHand := by
  constructor
  · simp [Route.processHandTrackingResult, Scenario.halfOracle]
    norm_num [Point3.mk.injEq]
  · simp [Route.processHandTrackingResult, Route.RouteFingertips.mk.injEq]

/-- C4 (amended): a failed extraction round trip is absorbed — the
handler always yields well-defined fingertip data — but instead of the
no-hand reset it fills all three fingertips with simulated values; only
the empty-hands response resets them to absent. -/
theorem c4_failure_simulated_amended (rand : ℕ → ℚ) (now : ℚ) :
    ((Route.processHandTrackingResult rand now Route.DetectOutcome.noHand).thumb = none ∧
      (Route.processHandTrackingResult rand now Route.DetectOutcome.noHand).indexPip = none ∧
      (Route.processHandTrackingResult rand now Route.DetectOutcome.noHand).indexTip = none) ∧
    ((Route.processHandTrackingResult rand now Route.DetectOutcome.apiError).thumb.isSome = true ∧
      (Route.processHandTrackingResult rand now Route.DetectOutcome.apiError).indexPip.isSome = true ∧
      (Route.processHandTrackingResult rand now Route.DetectOutcome.apiError).indexTip.isSome = true) :=
  ⟨⟨rfl, rfl, rfl⟩, ⟨rfl, rfl, rfl⟩⟩

/-- C2: for fingertip data with thumb and indexTip present, the computed
gripper is Closed exactly when the Euclidean pixel distance between
thumb and indexTip (the square root of the squared distance, as the
source computes it) is strictly below 50, and Open otherwise. -/
theorem c2_gripper_closed_iff (d : FingertipData) (w h : ℚ) (prev : RobotMapping)
    (t i : Point3) (ht : d.thumb = some t) (hi : d.indexTip = some i) :
    ((Widget.updateRobotMapping d w h prev).gripper = Gripper.Closed ↔
      Real.sqrt ((Widget.distSq t i : ℚ) : ℝ) < 50) := by
  obtain ⟨th, ip, it⟩ := d
  simp only at ht hi
  subst ht
  subst hi
  have hg : (Widget.updateRobotMapping ⟨some t, ip, some i⟩ w h prev).gripper
      = (if Widget.distSq t i < 2500 then Gripper.Closed else Gripper.Open) := rfl
  rw [hg, Real.sqrt_lt' (by norm_num : (0:ℝ) < 50),
    show (50:ℝ) ^ 2 = ((2500:ℚ) : ℝ) from by norm_num, Rat.cast_lt]
  split_ifs with hlt
  · exact iff_of_true rfl hlt
  · exact iff_of_false (by simp) hlt

/-- C2 (witness): with identical thumb and indexTip pixel coordinates
the squared distance is 0, the equivalence holds at that input, and the
gripper is indeed Closed. -/
theorem c2_gripper_closed_iff_witness :
    Scenario.pinch.thumb = some Scenario.pinchPt ∧
    ((Widget.updateRobotMapping Scenario.pinch 640 480 neutralMapping).gripper = Gripper.Closed ↔
      Real.sqrt ((Widget.distSq Scenario.pinchPt Scenario.pinchPt : ℚ) : ℝ) < 50) ∧
    (Widget.updateRobotMapping Scenario.pinch 640 480 neutralMapping).gripper = Gripper.Closed := by
  have hiff := c2_gripper_closed_iff Scenario.pinch 640 480 neutralMapping
    Scenario.pinchPt Scenario.pinchPt rfl rfl
  refine ⟨rfl, hiff, hiff.mpr ?_⟩
  have h0 : Widget.distSq Scenario.pinchPt Scenario.pinchPt = 0 := by
    norm_num [Widget.distSq]
  rw [h0]
  push_cast
  rw [Real.sqrt_zero]
  norm_num

/-- C3 (counterexample): in the end-to-end scenario the thumb-to-indexTip
pixel distance is the square root of 21760, which is below 148 — not
approximately 154.9 as claimed (it misses 154.9 by more than 1). -/
theorem c3_distance_counterexample :
    Widget.distSq Scenario.pxThumb Scenario.pxIndex = 21760 ∧
    Real.sqrt ((Widget.distSq Scenario.pxThumb Scenario.pxIndex : ℚ) : ℝ) < 148 ∧
    ¬ |Real.sqrt ((Widget.distSq Scenario.pxThumb Scenario.pxIndex : ℚ) : ℝ) - 1549/10| ≤ 1 := by
  have h0 : Widget.distSq Scenario.pxThumb Scenario.pxIndex = 21760 := by
    norm_num [Widget.distSq, Scenario.pxThumb, Scenario.pxIndex]
  have hcast : ((Widget.distSq Scenario.pxThumb Scenario.pxIndex : ℚ) : ℝ) = 21760 := by
    rw [h0]
    norm_num
  have hlt : Real.sqrt ((Widget.distSq Scenario.pxThumb Scenario.pxIndex : ℚ) : ℝ) < 148 := by
    rw [hcast, Real.sqrt_lt' (by norm_num : (0:ℝ) < 148)]
    norm_num
  refine ⟨h0, hlt, ?_⟩
  rw [abs_le]
  rintro ⟨hc, -⟩
  linarith

/-- C3 (amended): the end-to-end scenario on a 640×480 frame gives
indexTip pixel (352,96), thumb pixel (320,240), gripper Open,
x = 0.1 and y = 0.6 exactly, z = 0, and a thumb-to-indexTip pixel
distance strictly between 147 and 148 (approximately 147.5, not 154.9). -/
theorem c3_scenario_amended :
    (Widget.toPixels Scenario.lm3 640 480).thumb = some Scenario.pxThumb ∧
    (Widget.toPixels Scenario.lm3 640 480).indexTip = some Scenario.pxIndex ∧
    (Widget.updateRobotMapping (Widget.toPixels Scenario.lm3 640 480) 640 480
      neutralMapping).gripper = Gripper.Open ∧
    (Widget.updateRobotMapping (Widget.toPixels Scenario.lm3 640 480) 640 480
      neutralMapping).x = 1/10 ∧
    (Widget.updateRobotMapping (Widget.toPixels Scenario.lm3 640 480) 640 480
      neutralMapping).y = 3/5 ∧
    (Widget.updateRobotMapping (Widget.toPixels Scenario.lm3 640 480) 640 480
      neutralMapping).z = 0 ∧
    147 < Real.sqrt ((Widget.distSq Scenario.pxThumb Scenario.pxIndex : ℚ) : ℝ) ∧
    Real.sqrt ((Widget.distSq Scenario.pxThumb Scenario.pxIndex : ℚ) : ℝ) < 148 := by
  have hcast : ((Widget.distSq Scenario.pxThumb Scenario.pxIndex : ℚ) : ℝ) = 21760 := by
    norm_num [Widget.distSq, Scenario.pxThumb, Scenario.pxIndex]
  refine ⟨?_, ?_, ?_, ?_, ?_, ?_, ?_, ?_⟩
  · norm_num [Widget.toPixels, Scenario.lm3, Scenario.pxThumb, Point3.mk.injEq]
  · norm_num [Widget.toPixels, Scenario.lm3, Scenario.pxIndex, Point3.mk.injEq]
  · norm_num [Widget.updateRobotMapping, Widget.toPixels, Widget.distSq, Scenario.lm3]
  · norm_num [Widget.updateRobotMapping, Widget.toPixels, Widget.distSq, Scenario.lm3]
  · norm_num [Widget.updateRobotMapping, Widget.toPixels, Widget.distSq, Scenario.lm3]
  · norm_num [Widget.updateRobotMapping, Widget.toPixels, Widget.distSq, Scenario.lm3]
  · rw [hcast, show (147 : ℝ) = Real.sqrt (147 ^ 2) from
      (Real.sqrt_sq (by norm_num)).symm]
    apply Real.sqrt_lt_sqrt (by norm_num)
    norm_num
  · rw [hcast, Real.sqrt_lt' (by norm_num : (0:ℝ) < 148)]
    norm_num

/-- C7 (counterexample): an indexTip with relative depth 2 (frame
640×480) yields a robot mapping with z = 4, outside the claimed range
[0,2] — the source clamps z only from below. -/
theorem c7_range_counterexample :
    (Widget.updateRobotMapping Scenario.deepTip 640 480 neutralMapping).z = 4 ∧
    ¬ (Widget.updateRobotMapping Scenario.deepTip 640 480 neutralMapping).z ≤ 2 := by
  have hz : (Widget.updateRobotMapping Scenario.deepTip 640 480 neutralMapping).z = 4 := by
    simp [Widget.updateRobotMapping, Scenario.deepTip]
    norm_num [max_eq_right]
  refine ⟨hz, ?_⟩
  rw [hz]
  norm_num

/-- C7 (amended): for positive frame dimensions and an indexTip landmark
whose normalized x,y lie in [0,1], the mapped x and y lie in [-1,1] and
z is nonnegative; z moreover stays within [0,2] whenever the relative
depth is at most 1, but it has no upper clamp in general. -/
theorem c7_range_amended (lm : Landmarks) (w h : ℚ) (prev : RobotMapping)
    (hw : 0 < w) (hh : 0 < h)
    (hx0 : 0 ≤ lm.indexTip.x) (hx1 : lm.indexTip.x ≤ 1)
    (hy0 : 0 ≤ lm.indexTip.y) (hy1 : lm.indexTip.y ≤ 1) :
    (-1 ≤ (Widget.updateRobotMapping (Widget.toPixels lm w h) w h prev).x ∧
      (Widget.updateRobotMapping (Widget.toPixels lm w h) w h prev).x ≤ 1) ∧
    (-1 ≤ (Widget.updateRobotMapping (Widget.toPixels lm w h) w h prev).y ∧
      (Widget.updateRobotMapping (Widget.toPixels lm w h) w h prev).y ≤ 1) ∧
    0 ≤ (Widget.updateRobotMapping (Widget.toPixels lm w h) w h prev).z ∧
    (lm.indexTip.z ≤ 1 →
      (Widget.updateRobotMapping (Widget.toPixels lm w h) w h prev).z ≤ 2) := by
  obtain ⟨tt, ip, it⟩ := lm
  simp only [Widget.updateRobotMapping, Widget.toPixels]
  have hxw : it.x * w / w = it.x := mul_div_cancel_right₀ it.x (ne_of_gt hw)
  have hyh : it.y * h / h = it.y := mul_div_cancel_right₀ it.y (ne_of_gt hh)
  rw [hxw, hyh]
  refine ⟨⟨by linarith, by linarith⟩, ⟨by linarith, by linarith⟩, le_max_left 0 _, ?_⟩
  intro hz1
  exact max_le (by norm_num) (by linarith)

/-- C7 (witness): the amended range bounds at the scenario landmarks on
a 640×480 frame. -/
theorem c7_range_amended_witness :
    (0:ℚ) < 640 ∧ 0 ≤ Scenario.lm3.indexTip.x ∧ Scenario.lm3.indexTip.x ≤ 1 ∧
    ((-1 ≤ (Widget.updateRobotMapping (Widget.toPixels Scenario.lm3 640 480) 640 480
        neutralMapping).x ∧
      (Widget.updateRobotMapping (Widget.toPixels Scenario.lm3 640 480) 640 480
        neutralMapping).x ≤ 1) ∧
    (-1 ≤ (Widget.updateRobotMapping (Widget.toPixels Scenario.lm3 640 480) 640 480
        neutralMapping).y ∧
      (Widget.updateRobotMapping (Widget.toPixels Scenario.lm3 640 480) 640 480
        neutralMapping).y ≤ 1) ∧
    0 ≤ (Widget.updateRobotMapping (Widget.toPixels Scenario.lm3 640 480) 640 480
        neutralMapping).z ∧
    (Scenario.lm3.indexTip.z ≤ 1 →
      (Widget.updateRobotMapping (Widget.toPixels Scenario.lm3 640 480) 640 480
        neutralMapping).z ≤ 2)) :=
  ⟨by norm_num, by norm_num [Scenario.lm3], by norm_num [Scenario.lm3],
    c7_range_amended Scenario.lm3 640 480 neutralMapping (by norm_num) (by norm_num)
      (by norm_num [Scenario.lm3]) (by norm_num [Scenario.lm3])
      (by norm_num [Scenario.lm3]) (by norm_num [Scenario.lm3])⟩

/-- C8: for positive frame dimensions, the mapped x is a linear and
strictly increasing function of the indexTip pixel x (difference
2·Δx/w), and the mapped y is a linear and strictly decreasing function
of the indexTip pixel y (difference −2·Δy/h), for any two fingertip sets
sharing thumb and indexPip. -/
theorem c8_mapping_linear_monotone (w h : ℚ) (hw : 0 < w) (hh : 0 < h)
    (thumb pip a b : Point3) (prev : RobotMapping) :
    ((Widget.updateRobotMapping ⟨some thumb, some pip, some a⟩ w h prev).x -
      (Widget.updateRobotMapping ⟨some thumb, some pip, some b⟩ w h prev).x
        = 2 * (a.x - b.x) / w) ∧
    (a.x < b.x →
      (Widget.updateRobotMapping ⟨some thumb, some pip, some a⟩ w h prev).x <
        (Widget.updateRobotMapping ⟨some thumb, some pip, some b⟩ w h prev).x) ∧
    ((Widget.updateRobotMapping ⟨some thumb, some pip, some a⟩ w h prev).y -
      (Widget.updateRobotMapping ⟨some thumb, some pip, some b⟩ w h prev).y
        = -2 * (a.y - b.y) / h) ∧
    (a.y < b.y →
      (Widget.updateRobotMapping ⟨some thumb, some pip, some b⟩ w h prev).y <
        (Widget.updateRobotMapping ⟨some thumb, some pip, some a⟩ w h prev).y) := by
  simp only [Widget.updateRobotMapping]
  refine ⟨?_, ?_, ?_, ?_⟩
  · field_simp
    ring
  · intro hab
    have h1 : 0 < (b.x - a.x) / w := div_pos (by linarith) hw
    rw [sub_div] at h1
    linarith
  · field_simp
    ring
  · intro hab
    have h1 : 0 < (b.y - a.y) / h := div_pos (by linarith) hh
    rw [sub_div] at h1
    linarith

/-- C8 (witness): the linear monotone mapping facts at concrete inputs
(640×480 frame, indexTip moved from (100,50) to (200,150)). -/
theorem c8_mapping_linear_monotone_witness :
    (0:ℚ) < 640 ∧ (0:ℚ) < 480 ∧
    (((Widget.updateRobotMapping ⟨some Scenario.pxThumb, some Scenario.pinchPt,
          some Scenario.tipA⟩ 640 480 neutralMapping).x -
      (Widget.updateRobotMapping ⟨some Scenario.pxThumb, some Scenario.pinchPt,
          some Scenario.tipB⟩ 640 480 neutralMapping).x
        = 2 * (Scenario.tipA.x - Scenario.tipB.x) / 640) ∧
    (Scenario.tipA.x < Scenario.tipB.x →
      (Widget.updateRobotMapping ⟨some Scenario.pxThumb, some Scenario.pinchPt,
          some Scenario.tipA⟩ 640 480 neutralMapping).x <
        (Widget.updateRobotMapping ⟨some Scenario.pxThumb, some Scenario.pinchPt,
          some Scenario.tipB⟩ 640 480 neutralMapping).x) ∧
    ((Widget.updateRobotMapping ⟨some Scenario.pxThumb, some Scenario.pinchPt,
          some Scenario.tipA⟩ 640 480 neutralMapping).y -
      (Widget.updateRobotMapping ⟨some Scenario.pxThumb, some Scenario.pinchPt,
          some Scenario.tipB⟩ 640 480 neutralMapping).y
        = -2 * (Scenario.tipA.y - Scenario.tipB.y) / 480) ∧
    (Scenario.tipA.y < Scenario.tipB.y →
      (Widget.updateRobotMapping ⟨some Scenario.pxThumb, some Scenario.pinchPt,
          some Scenario.tipB⟩ 640 480 neutralMapping).y <
        (Widget.updateRobotMapping ⟨some Scenario.pxThumb, some Scenario.pinchPt,
          some Scenario.tipA⟩ 640 480 neutralMapping).y)) :=
  ⟨by norm_num, by norm_num,
    c8_mapping_linear_monotone 640 480 (by norm_num) (by norm_num)
      Scenario.pxThumb Scenario.pinchPt Scenario.tipA Scenario.tipB neutralMapping⟩

/-- C5: evaluation of the channel at the failing trace.  After the user
explicitly disconnects (step 3 of the trace), the close event of the
explicitly closed socket still runs the installed onclose handler and
schedules a reconnect timer (state after 4 events), and when that timer
fires a second socket is created — an automatic reconnect attempt with
no user-initiated connect after the disconnect. -/
theorem c5_reconnect_after_explicit_disconnect :
    (Channel.runEvents (Scenario.disconnectTrace.take 3)).reconnectRef = none ∧
    (Channel.runEvents (Scenario.disconnectTrace.take 3)).timers = [] ∧
    (Channel.runEvents (Scenario.disconnectTrace.take 4)).reconnectRef = some 0 ∧
    (Channel.runEvents (Scenario.disconnectTrace.take 4)).timers
      = [(0, Channel.reconnectDelayMs)] ∧
    (Channel.runEvents Scenario.disconnectTrace).sockets.length = 2 ∧
    (Channel.runEvents Scenario.disconnectTrace).wsRef = some 1 ∧
    (Channel.runEvents Scenario.disconnectTrace).sockets.get? 1
      = some Channel.ReadyState.CONNECTING := by
  decide

/-- C6 (counterexample): two connect clicks while the first socket is
still CONNECTING create two overlapping sockets; when both deliver their
close events, each schedules a reconnect timer and the second overwrites
the timer reference without clearing the first, leaving two reconnect
timers pending at once — refuting the at-most-one-pending invariant. -/
theorem c6_single_pending_timer_counterexample :
    (Channel.runEvents Scenario.doubleConnectTrace).timers
      = [(0, Channel.reconnectDelayMs), (1, Channel.reconnectDelayMs)] ∧
    (Channel.runEvents Scenario.doubleConnectTrace).timers.length = 2 ∧
    (Channel.runEvents Scenario.doubleConnectTrace).reconnectRef = some 1 := by
  decide

/-- C6 (amended): every close event delivered to a live socket schedules
exactly one reconnect timer, with the fixed 3000 ms delay, and makes it
the referenced pending attempt; a successful open event on a connecting
socket cancels the reconnect timer currently referenced (and only that
one).  Because a close overwrites the reference without clearing the
previous timer, at most one pending timer is guaranteed only while
sockets do not overlap. -/
theorem c6_reconnect_schedule_amended (s : Channel.WSState) (sid : ℕ)
    (hlive : Channel.socketLive s sid) :
    ((Channel.step s (Channel.Ev.closeEvt sid)).timers
        = s.timers ++ [(s.nextTimer, Channel.reconnectDelayMs)] ∧
      (Channel.step s (Channel.Ev.closeEvt sid)).reconnectRef = some s.nextTimer) ∧
    (s.sockets.get? sid = some Channel.ReadyState.CONNECTING →
      (Channel.step s (Channel.Ev.openEvt sid)).reconnectRef = none ∧
      (Channel.step s (Channel.Ev.openEvt sid)).timers
        = s.timers.filter (fun p => some p.1 ≠ s.reconnectRef)) := by
  constructor
  · have hstep : Channel.step s (Channel.Ev.closeEvt sid)
        = Channel.onCloseHandler
            { s with sockets := s.sockets.set sid Channel.ReadyState.CLOSED } := by
      rcases hlive with h | h | h <;> (simp only [Channel.step]; rw [h])
    rw [hstep]
    exact ⟨rfl, rfl⟩
  · intro hconn
    have hstep : Channel.step s (Channel.Ev.openEvt sid)
        = Channel.onOpenHandler
            { s with sockets := s.sockets.set sid Channel.ReadyState.OPEN } := by
      simp only [Channel.step]
      rw [hconn]
    rw [hstep]
    simp only [Channel.onOpenHandler, Channel.clearReconnectTimeout]
    cases hr : s.reconnectRef with
    | none => simp [hr]
    | some t => simp [hr]

/-- C6 (witness): the amended scheduling facts at the concrete state
reached after one connect click, for socket 0. -/
theorem c6_reconnect_schedule_amended_witness :
    Channel.socketLive (Channel.runEvents [Channel.Ev.userConnect]) 0 ∧
    (((Channel.step (Channel.runEvents [Channel.Ev.userConnect])
          (Channel.Ev.closeEvt 0)).timers
        = (Channel.runEvents [Channel.Ev.userConnect]).timers
            ++ [((Channel.runEvents [Channel.Ev.userConnect]).nextTimer,
                  Channel.reconnectDelayMs)] ∧
      (Channel.step (Channel.runEvents [Channel.Ev.userConnect])
          (Channel.Ev.closeEvt 0)).reconnectRef
        = some (Channel.runEvents [Channel.Ev.userConnect]).nextTimer) ∧
    ((Channel.runEvents [Channel.Ev.userConnect]).sockets.get? 0
        = some Channel.ReadyState.CONNECTING →
      (Channel.step (Channel.runEvents [Channel.Ev.userConnect])
          (Channel.Ev.openEvt 0)).reconnectRef = none ∧
      (Channel.step (Channel.runEvents [Channel.Ev.userConnect])
          (Channel.Ev.openEvt 0)).timers
        = (Channel.runEvents [Channel.Ev.userConnect]).timers.filter
            (fun p => some p.1 ≠ (Channel.runEvents [Channel.Ev.userConnect]).reconnectRef))) :=
  ⟨by decide,
    c6_reconnect_schedule_amended (Channel.runEvents [Channel.Ev.userConnect]) 0 (by decide)⟩
